import Mathlib

/-!
Shallow embedding of the `local-simple-rag` repository's orchestration logic:
the `Indexer` class (document loading post-processing, config resolution,
batched indexing) and the `queryDatabase` query service.

External collaborators (directory loader, vector store, chat model) are
modelled as explicit inputs/oracles; the code's own control flow, string
building and JavaScript truthiness semantics (`x || default`, where
`undefined`, `false`, `0` and `""` are falsy) are translated faithfully.
Similarity scores (JavaScript numbers) are modelled as rationals `ℚ`;
the claims under study only compare scores against the literal `0.6`,
which is exact in every numeric model.
-/

/-- A LangChain `Document`: `pageContent` plus a metadata object, modelled as
a partial map from keys to string values (`none` = key absent / `undefined`). -/
structure Document where
  pageContent : String
  metadata : String → Option String

/-- JavaScript `x || d` for an optional boolean field (`undefined`, and the
falsy value `false`, both fall through to the default). From
`config?.field || d` in the `Indexer` constructor. -/
def jsOrBool (x : Option Bool) (d : Bool) : Bool :=
  match x with
  | some b => b || d
  | none => d

/-- JavaScript `x || d` for an optional numeric field: `undefined` and the
falsy value `0` fall through to the default. -/
def jsOrNat (x : Option ℕ) (d : ℕ) : ℕ :=
  match x with
  | some n => if n = 0 then d else n
  | none => d

/-- The optional `IndexerConfig` argument of the `Indexer` constructor
(`src/types`): every field may be left unset. -/
structure IndexerConfig where
  chunkSize : Option ℕ := none
  chunkOverlap : Option ℕ := none
  enableLogging : Option Bool := none
  batchSize : Option ℕ := none

/-- The resolved configuration `Required<IndexerConfig>` stored on an
`Indexer` instance. -/
structure ResolvedConfig where
  chunkSize : ℕ
  chunkOverlap : ℕ
  enableLogging : Bool
  batchSize : ℕ

/-- The `Indexer` constructor's config resolution (src/unnamed/part_000,
lines 35-40):
`chunkSize: config?.chunkSize || 500`, `chunkOverlap: config?.chunkOverlap || 100`,
`enableLogging: config?.enableLogging || true`, `batchSize: config?.batchSize || 10`. -/
def resolveConfig (config : Option IndexerConfig) : ResolvedConfig where
  chunkSize := jsOrNat (config.bind (·.chunkSize)) 500
  chunkOverlap := jsOrNat (config.bind (·.chunkOverlap)) 100
  enableLogging := jsOrBool (config.bind (·.enableLogging)) true
  batchSize := jsOrNat (config.bind (·.batchSize)) 10

/-- The metadata post-processing applied to each loaded document
(src/unnamed/part_000, lines 80-86):
`doc.metadata = { ...doc.metadata, loadedFrom: "local_folder", folderPath }`.
Object spread keeps every prior key; the two listed keys are then (re)assigned. -/
def mergeMetadata (m : String → Option String) (folderPath : String) : String → Option String :=
  fun k =>
    if k = "loadedFrom" then some "local_folder"
    else if k = "folderPath" then some folderPath
    else m k

/-- `Indexer.loadDocuments` (src/unnamed/part_000, lines 62-98), success path.
The recursive `DirectoryLoader` is an external collaborator; its output is the
`loaded` parameter. The method then merges provenance metadata into every
document and returns them (the failure path wraps and rethrows the loader
error and returns no documents, so it makes no claim about returned values). -/
def loadDocuments (loaded : List Document) (folderPath : String) : List Document :=
  loaded.map (fun d => { d with metadata := mergeMetadata d.metadata folderPath })

/-- The batch partition produced by the loop in `Indexer.indexDocuments`
(src/unnamed/part_000, lines 145-159):
`for (let i = 0; i < chunks.length; i += batchSize) { const batch = chunks.slice(i, i + batchSize); ... }`.
For `B ≥ 1` each step takes `chunks.slice(i, i + B) = x :: xs.take (B - 1)`
and continues from index `i + B`. (For `B = 0` the source loop would not
terminate; the resolved config never yields `B = 0`, see
`resolveConfig_batchSize_pos`.) -/
def chunksOf (B : ℕ) : List Document → List (List Document)
  | [] => []
  | x :: xs => (x :: xs.take (B - 1)) :: chunksOf B (xs.drop (B - 1))
  termination_by l => l.length
  decreasing_by simp [List.length_drop]; omega

/-- Behaviour of the vector store's `addDocuments` across one run: the `k`-th
call (0-based) either succeeds (`none`) or throws the given error message. -/
structure StoreOracle where
  addResult : ℕ → Option String

/-- Observable outcome of one `indexDocuments` run: the `addDocuments` calls
made (in order), the batches the store committed (not rolled back), the
propagated error if any, and the log lines in order. -/
structure IndexRun where
  calls : List (List Document)
  committed : List (List Document)
  err : Option String
  logs : List String

/-- `this.log` gating (src/unnamed/part_000, lines 44-48): the message is
emitted only when `config.enableLogging` holds. -/
def logIf (el : Bool) (m : String) (ls : List String) : List String :=
  if el then m :: ls else ls

/-- The per-batch progress log line (src/unnamed/part_000, lines 147-151):
`Processing batch ⟨k+1⟩/⟨total⟩ (⟨size⟩ chunks)`. -/
def batchLog (k total size : ℕ) : String :=
  "Processing batch " ++ toString (k + 1) ++ "/" ++ toString total ++
    " (" ++ toString size ++ " chunks)"

/-- The batch loop of `Indexer.indexDocuments` (src/unnamed/part_000,
lines 145-161), run over the batch list starting at call index `k`.
Each iteration logs progress, then `await this.vectorStore?.addDocuments(batch)`:
with no store the optional chaining makes no call; with a store a thrown error
is logged (`Error processing batch: ...`) and rethrown, aborting the loop.
After the last batch the success line is logged. -/
def runBatches (el : Bool) (store : Option StoreOracle) (total : ℕ) :
    ℕ → List (List Document) → IndexRun
  | _, [] =>
      { calls := [], committed := [], err := none,
        logs := logIf el "Successfully saved all chunks to vector store" [] }
  | k, b :: bs =>
      let pl := batchLog k total b.length
      match store with
      | none =>
          let r := runBatches el none total (k + 1) bs
          { r with logs := logIf el pl r.logs }
      | some o =>
          match o.addResult k with
          | none =>
              let r := runBatches el (some o) total (k + 1) bs
              { calls := b :: r.calls, committed := b :: r.committed,
                err := r.err, logs := logIf el pl r.logs }
          | some e =>
              { calls := [b], committed := [], err := some e,
                logs := logIf el pl (logIf el ("Error processing batch: " ++ e) []) }

/-- `Indexer.indexDocuments` (src/unnamed/part_000, lines 135-162): early
return with a log line on an empty chunk list; otherwise log, partition into
batches of `config.batchSize` and run them strictly in order. -/
def indexDocuments (cfg : ResolvedConfig) (store : Option StoreOracle)
    (chunks : List Document) : IndexRun :=
  if chunks.isEmpty then
    { calls := [], committed := [], err := none,
      logs := logIf cfg.enableLogging "No chunks to save" [] }
  else
    let total := (chunks.length + cfg.batchSize - 1) / cfg.batchSize
    let r := runBatches cfg.enableLogging store total 0 (chunksOf cfg.batchSize chunks)
    { r with
      logs := logIf cfg.enableLogging
        ("Saving " ++ toString chunks.length ++ " chunks to vector store...")
        r.logs }

/-- The literal text of `PROMPT_TEMPLATE` before the `{context}` placeholder
(src/docs/embedding-configuration-guide.md, lines 353-361; the backtick
template literal starts with a newline). -/
def tplPre : String := "\nAnswer the question based only on the following context:\n\n"

/-- The literal text of `PROMPT_TEMPLATE` between the `{context}` and
`{question}` placeholders. -/
def tplMid : String := "\n\n---\n\nAnswer the question based on the above context: "

/-- The literal text of `PROMPT_TEMPLATE` after the `{question}` placeholder
(the template literal ends with a newline). -/
def tplSuf : String := "\n"

/-- The constant `PROMPT_TEMPLATE`
(src/docs/embedding-configuration-guide.md, lines 353-361). -/
def PROMPT_TEMPLATE : String :=
  tplPre ++ "{context}" ++ tplMid ++ "{question}" ++ tplSuf

/-- `ChatPromptTemplate.fromTemplate(PROMPT_TEMPLATE).format({context, question})`
(src/docs/embedding-configuration-guide.md, lines 382-386): the f-string
template is parsed once into its literal pieces around the two placeholders,
and formatting splices the given values into the holes; the values themselves
are never re-scanned for placeholders. -/
def formatPrompt (context question : String) : String :=
  tplPre ++ context ++ tplMid ++ question ++ tplSuf

/-- The retrieval gate of `queryDatabase`
(src/docs/embedding-configuration-guide.md, line 373):
`results.length === 0 || (results[0] && results[0][1] < 0.6)`.
With a non-empty list `results[0]` is a (truthy) pair, so the gate fires iff
the list is empty or the first result's score is `< 0.6`; scores of
lower-ranked results are never read. `0.6` is written `mkRat 6 10`. -/
def gateFails (results : List (Document × ℚ)) : Bool :=
  match results with
  | [] => true
  | (_, s) :: _ => decide (s < mkRat 6 10)

/-- The context assembly of `queryDatabase`
(src/docs/embedding-configuration-guide.md, lines 378-380):
`results.map(([doc, _score]) => doc.pageContent).join("\n\n---\n\n")`. -/
def contextText (results : List (Document × ℚ)) : String :=
  String.intercalate "\n\n---\n\n" (results.map (fun r => r.1.pageContent))

/-- `doc.metadata.source || null`
(src/docs/embedding-configuration-guide.md, line 396): an absent
(`undefined`) source and the falsy empty string both become `null`. -/
def jsStrOrNull (v : Option String) : Option String :=
  match v with
  | some s => if s = "" then none else some s
  | none => none

/-- The `QueryResult` interface
(src/docs/embedding-configuration-guide.md, lines 363-366). -/
structure QueryResult where
  response : String
  sources : List (Option String)

/-- Observable outcome of one `queryDatabase` run: the returned value, the
prompts sent to the chat model (in order), and the error log lines. -/
structure QueryRun where
  result : Option QueryResult
  chatCalls : List String
  errorLogs : List String

/-- `queryDatabase` (src/docs/embedding-configuration-guide.md,
lines 368-407). The vector store's `similaritySearchWithScore(queryText, 5)`
response is the `results` input (scored documents in retrieval order); the
chat model `model.invoke` is the `chat` oracle. If the gate fires the
function logs an error and returns `null`; otherwise it joins all contents
into the context, formats the prompt, invokes the chat model once, and maps
each result's `metadata.source || null` into the sources list. -/
def queryDatabase (chat : String → String) (results : List (Document × ℚ))
    (queryText : String) : QueryRun :=
  if gateFails results then
    { result := none, chatCalls := [],
      errorLogs := ["Unable to find matching results."] }
  else
    let ctx := contextText results
    let prompt := formatPrompt ctx queryText
    let responseText := chat prompt
    let sources := results.map (fun r => jsStrOrNull (r.1.metadata "source"))
    { result := some { response := responseText, sources := sources },
      chatCalls := [prompt], errorLogs := [] }

/-- A store whose `addDocuments` always succeeds. -/
def okStore : StoreOracle := ⟨fun _ => none⟩

/-- A store whose `k`-th `addDocuments` call (0-based) throws `e` and whose
other calls succeed. -/
def failStore (k : ℕ) (e : String) : StoreOracle :=
  ⟨fun j => if j = k then some e else none⟩

theorem chunksOf_eq_nil_iff (B : ℕ) (l : List Document) :
    chunksOf B l = [] ↔ l = [] := by
  cases l with
  | nil => simp [chunksOf]
  | cons x xs => simp [chunksOf]

theorem chunksOf_flatten (B : ℕ) (l : List Document) :
    (chunksOf B l).flatten = l := by
  induction l using chunksOf.induct B with
  | case1 => simp [chunksOf]
  | case2 x xs ih => simp [chunksOf, ih]

theorem chunksOf_length (B : ℕ) (hB : 0 < B) (l : List Document) (hl : l ≠ []) :
    (chunksOf B l).length = (l.length - 1) / B + 1 := by
  induction l using chunksOf.induct B with
  | case1 => exact absurd rfl hl
  | case2 x xs ih =>
    by_cases h : xs.drop (B - 1) = []
    · have hlen : xs.length - (B - 1) = 0 := by
        simpa using congrArg List.length h
      simp [chunksOf, h, Nat.div_eq_of_lt (show xs.length < B by omega)]
    · have hxs : B - 1 < xs.length := by
        by_contra hc
        exact h (by rw [List.drop_eq_nil_iff]; omega)
      have ihs := ih h
      have hdl : (xs.drop (B - 1)).length = xs.length - (B - 1) := by simp
      rw [hdl] at ihs
      have hdiv : xs.length + 1 - 1 = (xs.length - (B - 1) - 1) + B := by omega
      simp only [chunksOf, List.length_cons, ihs, hdiv,
        Nat.add_div_right _ hB]

theorem chunksOf_mem_length_le (B : ℕ) (hB : 0 < B) (l : List Document)
    (b : List Document) (hb : b ∈ chunksOf B l) : b.length ≤ B := by
  induction l using chunksOf.induct B with
  | case1 => simp [chunksOf] at hb
  | case2 x xs ih =>
    rw [chunksOf] at hb
    rcases List.mem_cons.mp hb with h | h
    · subst h
      simp [List.length_take]
      omega
    · exact ih h

theorem chunksOf_dropLast_length (B : ℕ) (hB : 0 < B) (l : List Document)
    (b : List Document) (hb : b ∈ (chunksOf B l).dropLast) : b.length = B := by
  induction l using chunksOf.induct B with
  | case1 => simp [chunksOf] at hb
  | case2 x xs ih =>
    rw [chunksOf] at hb
    rcases hrest : chunksOf B (xs.drop (B - 1)) with _ | ⟨r, rs⟩
    · rw [hrest] at hb
      simp at hb
    · rw [hrest] at hb
      rw [List.dropLast_cons₂] at hb
      rcases List.mem_cons.mp hb with h | h
      · subst h
        have hne : xs.drop (B - 1) ≠ [] := by
          intro hc
          rw [(chunksOf_eq_nil_iff B _).mpr hc] at hrest
          exact List.noConfusion hrest
        have hxs : B - 1 < xs.length := by
          by_contra hc
          exact hne (by rw [List.drop_eq_nil_iff]; omega)
        simp [List.length_take]
        omega
      · rw [← hrest] at h
        exact ih h

theorem chunksOf_take_flatten (B : ℕ) (hB : 0 < B) (k : ℕ) (l : List Document) :
    ((chunksOf B l).take k).flatten = l.take (k * B) := by
  induction k generalizing l with
  | zero => simp
  | succ k ih =>
    cases l with
    | nil => simp [chunksOf]
    | cons x xs =>
      rw [chunksOf, List.take_succ_cons, List.flatten_cons, ih]
      have hmul : (k + 1) * B = B + k * B := by ring
      rw [hmul, List.take_add]
      have hB1 : B = (B - 1) + 1 := by omega
      rw [hB1, List.take_succ_cons, List.drop_succ_cons]
      simp

theorem runBatches_none (total k : ℕ) (bs : List (List Document)) :
    (runBatches true none total k bs).calls = [] ∧
    (runBatches true none total k bs).committed = [] ∧
    (runBatches true none total k bs).err = none ∧
    "Successfully saved all chunks to vector store" ∈
      (runBatches true none total k bs).logs := by
  induction bs generalizing k with
  | nil => simp [runBatches, logIf]
  | cons b bs ih =>
    obtain ⟨h1, h2, h3, h4⟩ := ih (k + 1)
    simp only [runBatches, logIf, if_pos rfl]
    exact ⟨h1, h2, h3, List.mem_cons_of_mem _ h4⟩

theorem runBatches_ok (el : Bool) (o : StoreOracle)
    (h : ∀ j, o.addResult j = none) (total k : ℕ) (bs : List (List Document)) :
    (runBatches el (some o) total k bs).calls = bs ∧
    (runBatches el (some o) total k bs).committed = bs ∧
    (runBatches el (some o) total k bs).err = none := by
  induction bs generalizing k with
  | nil => simp [runBatches]
  | cons b bs ih =>
    obtain ⟨h1, h2, h3⟩ := ih (k + 1)
    simp only [runBatches, h k]
    exact ⟨by rw [h1], by rw [h2], h3⟩

theorem runBatches_fail (el : Bool) (e : String) (kf total k₀ : ℕ)
    (bs : List (List Document)) (hk : k₀ ≤ kf) (hlt : kf - k₀ < bs.length) :
    (runBatches el (some (failStore kf e)) total k₀ bs).calls =
      bs.take (kf - k₀ + 1) ∧
    (runBatches el (some (failStore kf e)) total k₀ bs).committed =
      bs.take (kf - k₀) ∧
    (runBatches el (some (failStore kf e)) total k₀ bs).err = some e ∧
    (el = true → ("Error processing batch: " ++ e) ∈
      (runBatches el (some (failStore kf e)) total k₀ bs).logs) := by
  induction bs generalizing k₀ with
  | nil => simp at hlt
  | cons b bs ih =>
    by_cases hkk : k₀ = kf
    · subst hkk
      have hres : (failStore k₀ e).addResult k₀ = some e := by
        simp [failStore]
      simp only [runBatches, hres]
      refine ⟨by simp, by simp, by simp, ?_⟩
      intro hel
      subst hel
      simp [logIf]
    · have hres : (failStore kf e).addResult k₀ = none := by
        simp [failStore, hkk]
      have hk' : k₀ + 1 ≤ kf := by omega
      have hlt' : kf - (k₀ + 1) < bs.length := by
        simp at hlt
        omega
      obtain ⟨h1, h2, h3, h4⟩ := ih (k₀ + 1) hk' hlt'
      have e1 : kf - k₀ + 1 = (kf - (k₀ + 1) + 1) + 1 := by omega
      have e2 : kf - k₀ = (kf - (k₀ + 1)) + 1 := by omega
      simp only [runBatches, hres]
      refine ⟨?_, ?_, h3, ?_⟩
      · rw [e1, List.take_succ_cons, h1]
      · rw [e2, List.take_succ_cons, h2]
      · intro hel
        subst hel
        simp only [logIf, if_pos rfl]
        exact List.mem_cons_of_mem _ (h4 rfl)

theorem resolveConfig_enableLogging (config : Option IndexerConfig) :
    (resolveConfig config).enableLogging = true := by
  rcases config with _ | c
  · rfl
  · rcases hc : c.enableLogging with _ | b
    · simp [resolveConfig, jsOrBool, hc]
    · simp [resolveConfig, jsOrBool, hc]

theorem jsOrNat_pos (x : Option ℕ) (d : ℕ) (hd : 0 < d) : 0 < jsOrNat x d := by
  rcases x with _ | n
  · simpa [jsOrNat]
  · rcases n with _ | m
    · simpa [jsOrNat]
    · simp [jsOrNat]

theorem resolveConfig_batchSize_pos (config : Option IndexerConfig) :
    0 < (resolveConfig config).batchSize :=
  jsOrNat_pos _ _ (by omega)

theorem indexDocuments_calls (cfg : ResolvedConfig) (store : Option StoreOracle)
    (chunks : List Document) (h : chunks ≠ []) :
    (indexDocuments cfg store chunks).calls =
      (runBatches cfg.enableLogging store
        ((chunks.length + cfg.batchSize - 1) / cfg.batchSize) 0
        (chunksOf cfg.batchSize chunks)).calls := by
  obtain ⟨c, cs, rfl⟩ := List.exists_cons_of_ne_nil h
  rfl

theorem indexDocuments_committed (cfg : ResolvedConfig) (store : Option StoreOracle)
    (chunks : List Document) (h : chunks ≠ []) :
    (indexDocuments cfg store chunks).committed =
      (runBatches cfg.enableLogging store
        ((chunks.length + cfg.batchSize - 1) / cfg.batchSize) 0
        (chunksOf cfg.batchSize chunks)).committed := by
  obtain ⟨c, cs, rfl⟩ := List.exists_cons_of_ne_nil h
  rfl

theorem indexDocuments_err (cfg : ResolvedConfig) (store : Option StoreOracle)
    (chunks : List Document) (h : chunks ≠ []) :
    (indexDocuments cfg store chunks).err =
      (runBatches cfg.enableLogging store
        ((chunks.length + cfg.batchSize - 1) / cfg.batchSize) 0
        (chunksOf cfg.batchSize chunks)).err := by
  obtain ⟨c, cs, rfl⟩ := List.exists_cons_of_ne_nil h
  rfl

theorem indexDocuments_logs (cfg : ResolvedConfig) (store : Option StoreOracle)
    (chunks : List Document) (h : chunks ≠ []) :
    (indexDocuments cfg store chunks).logs =
      logIf cfg.enableLogging
        ("Saving " ++ toString chunks.length ++ " chunks to vector store...")
        (runBatches cfg.enableLogging store
          ((chunks.length + cfg.batchSize - 1) / cfg.batchSize) 0
          (chunksOf cfg.batchSize chunks)).logs := by
  obtain ⟨c, cs, rfl⟩ := List.exists_cons_of_ne_nil h
  rfl

theorem chunksOf_length_ceil (B : ℕ) (hB : 0 < B) (l : List Document) (hl : l ≠ []) :
    (chunksOf B l).length = (l.length + B - 1) / B := by
  rw [chunksOf_length B hB l hl]
  have hpos : 0 < l.length := List.length_pos.mpr hl
  have hsum : l.length + B - 1 = (l.length - 1) + B := by omega
  rw [hsum, Nat.add_div_right _ hB]

/-- Claim C2: for every non-empty chunk list and configured batch size `B`,
`indexDocuments` (run against a store whose add-documents calls all succeed)
performs exactly `⌈N / B⌉` add-documents calls, each receiving at most `B`
chunks with only the last batch possibly smaller, and the batches, in call
order, partition the chunk list consecutively (their concatenation in
strictly increasing call order is the chunk list itself). -/
theorem c2_indexDocuments_batching (config : Option IndexerConfig)
    (o : StoreOracle) (ho : ∀ j, o.addResult j = none)
    (chunks : List Document) (h : chunks ≠ []) :
    (indexDocuments (resolveConfig config) (some o) chunks).calls.length =
      (chunks.length + (resolveConfig config).batchSize - 1) /
        (resolveConfig config).batchSize ∧
    (indexDocuments (resolveConfig config) (some o) chunks).calls.flatten = chunks ∧
    (∀ b ∈ (indexDocuments (resolveConfig config) (some o) chunks).calls,
      b.length ≤ (resolveConfig config).batchSize) ∧
    (∀ b ∈ (indexDocuments (resolveConfig config) (some o) chunks).calls.dropLast,
      b.length = (resolveConfig config).batchSize) ∧
    (indexDocuments (resolveConfig config) (some o) chunks).err = none := by
  have hB := resolveConfig_batchSize_pos config
  obtain ⟨hc, hcm, he⟩ := runBatches_ok (resolveConfig config).enableLogging o ho
    ((chunks.length + (resolveConfig config).batchSize - 1) /
      (resolveConfig config).batchSize) 0
    (chunksOf (resolveConfig config).batchSize chunks)
  rw [indexDocuments_calls _ _ _ h, indexDocuments_err _ _ _ h, hc, he]
  refine ⟨?_, chunksOf_flatten _ _, ?_, ?_, rfl⟩
  · exact chunksOf_length_ceil _ hB _ h
  · exact fun b hb => chunksOf_mem_length_le _ hB _ b hb
  · exact fun b hb => chunksOf_dropLast_length _ hB _ b hb

/-- Witness for C2: three one-chunk documents with batch size 2 yield two
calls, `[A, B]` then `[C]`, concatenating back to the input. -/
theorem c2_indexDocuments_batching_witness :
    (indexDocuments (resolveConfig (some { batchSize := some 2 })) (some okStore)
      [⟨"A", fun _ => none⟩, ⟨"B", fun _ => none⟩, ⟨"C", fun _ => none⟩]).calls.length =
      (3 + (resolveConfig (some { batchSize := some 2 })).batchSize - 1) /
        (resolveConfig (some { batchSize := some 2 })).batchSize ∧
    (indexDocuments (resolveConfig (some { batchSize := some 2 })) (some okStore)
      [⟨"A", fun _ => none⟩, ⟨"B", fun _ => none⟩, ⟨"C", fun _ => none⟩]).calls.flatten =
      [⟨"A", fun _ => none⟩, ⟨"B", fun _ => none⟩, ⟨"C", fun _ => none⟩] ∧
    (∀ b ∈ (indexDocuments (resolveConfig (some { batchSize := some 2 })) (some okStore)
      [⟨"A", fun _ => none⟩, ⟨"B", fun _ => none⟩, ⟨"C", fun _ => none⟩]).calls,
      b.length ≤ (resolveConfig (some { batchSize := some 2 })).batchSize) ∧
    (∀ b ∈ (indexDocuments (resolveConfig (some { batchSize := some 2 })) (some okStore)
      [⟨"A", fun _ => none⟩, ⟨"B", fun _ => none⟩, ⟨"C", fun _ => none⟩]).calls.dropLast,
      b.length = (resolveConfig (some { batchSize := some 2 })).batchSize) ∧
    (indexDocuments (resolveConfig (some { batchSize := some 2 })) (some okStore)
      [⟨"A", fun _ => none⟩, ⟨"B", fun _ => none⟩, ⟨"C", fun _ => none⟩]).err = none :=
  c2_indexDocuments_batching (some { batchSize := some 2 }) okStore (fun _ => rfl)
    [⟨"A", fun _ => none⟩, ⟨"B", fun _ => none⟩, ⟨"C", fun _ => none⟩] (by simp)

/-- Claim C3: if the add-documents call for (0-based) batch `k` fails with
error `e`, `indexDocuments` re-raises `e` and logs it, the calls made are
exactly batches `0..k` (so later batches are never attempted), and the
batches committed by the prior successful calls — the first `k` batches,
i.e. the first `k·B` chunks — are retained, not rolled back. -/
theorem c3_batch_failure_aborts (config : Option IndexerConfig)
    (chunks : List Document) (e : String) (k : ℕ) (h : chunks ≠ [])
    (hk : k < (chunks.length + (resolveConfig config).batchSize - 1) /
      (resolveConfig config).batchSize) :
    (indexDocuments (resolveConfig config) (some (failStore k e)) chunks).err = some e ∧
    (indexDocuments (resolveConfig config) (some (failStore k e)) chunks).calls =
      (chunksOf (resolveConfig config).batchSize chunks).take (k + 1) ∧
    (indexDocuments (resolveConfig config) (some (failStore k e)) chunks).committed =
      (chunksOf (resolveConfig config).batchSize chunks).take k ∧
    (indexDocuments (resolveConfig config) (some (failStore k e)) chunks).committed.flatten =
      chunks.take (k * (resolveConfig config).batchSize) ∧
    ("Error processing batch: " ++ e) ∈
      (indexDocuments (resolveConfig config) (some (failStore k e)) chunks).logs := by
  have hB := resolveConfig_batchSize_pos config
  have hel := resolveConfig_enableLogging config
  rw [← chunksOf_length_ceil _ hB _ h] at hk
  obtain ⟨h1, h2, h3, h4⟩ := runBatches_fail (resolveConfig config).enableLogging e k
    ((chunks.length + (resolveConfig config).batchSize - 1) /
      (resolveConfig config).batchSize) 0
    (chunksOf (resolveConfig config).batchSize chunks)
    (Nat.zero_le k) (by simpa using hk)
  simp only [Nat.sub_zero] at h1 h2
  rw [indexDocuments_err _ _ _ h, indexDocuments_calls _ _ _ h,
    indexDocuments_committed _ _ _ h, indexDocuments_logs _ _ _ h]
  refine ⟨h3, h1, h2, ?_, ?_⟩
  · rw [h2, chunksOf_take_flatten _ hB k chunks]
  · have hm := h4 hel
    rw [hel] at hm ⊢
    simp only [logIf, if_pos rfl]
    exact List.mem_cons_of_mem _ hm

/-- Witness for C3: batch size 1, chunks `[A, B, C]`, failure on call 1:
the error propagates, calls stop after batch 1, and only batch 0 stays
committed. -/
theorem c3_batch_failure_aborts_witness :
    (indexDocuments (resolveConfig (some { batchSize := some 1 }))
      (some (failStore 1 "boom"))
      [⟨"A", fun _ => none⟩, ⟨"B", fun _ => none⟩, ⟨"C", fun _ => none⟩]).err =
        some "boom" ∧
    (indexDocuments (resolveConfig (some { batchSize := some 1 }))
      (some (failStore 1 "boom"))
      [⟨"A", fun _ => none⟩, ⟨"B", fun _ => none⟩, ⟨"C", fun _ => none⟩]).calls =
      (chunksOf (resolveConfig (some { batchSize := some 1 })).batchSize
        [⟨"A", fun _ => none⟩, ⟨"B", fun _ => none⟩, ⟨"C", fun _ => none⟩]).take 2 ∧
    (indexDocuments (resolveConfig (some { batchSize := some 1 }))
      (some (failStore 1 "boom"))
      [⟨"A", fun _ => none⟩, ⟨"B", fun _ => none⟩, ⟨"C", fun _ => none⟩]).committed =
      (chunksOf (resolveConfig (some { batchSize := some 1 })).batchSize
        [⟨"A", fun _ => none⟩, ⟨"B", fun _ => none⟩, ⟨"C", fun _ => none⟩]).take 1 ∧
    (indexDocuments (resolveConfig (some { batchSize := some 1 }))
      (some (failStore 1 "boom"))
      [⟨"A", fun _ => none⟩, ⟨"B", fun _ => none⟩, ⟨"C", fun _ => none⟩]).committed.flatten =
      [⟨"A", fun _ => none⟩, ⟨"B", fun _ => none⟩,
        (⟨"C", fun _ => none⟩ : Document)].take
        (1 * (resolveConfig (some { batchSize := some 1 })).batchSize) ∧
    ("Error processing batch: " ++ "boom") ∈
      (indexDocuments (resolveConfig (some { batchSize := some 1 }))
        (some (failStore 1 "boom"))
        [⟨"A", fun _ => none⟩, ⟨"B", fun _ => none⟩, ⟨"C", fun _ => none⟩]).logs :=
  c3_batch_failure_aborts (some { batchSize := some 1 })
    [⟨"A", fun _ => none⟩, ⟨"B", fun _ => none⟩, ⟨"C", fun _ => none⟩]
    "boom" 1 (by simp) (by decide)

/-- Claim C7: on an empty chunk list `indexDocuments` makes zero
add-documents calls and returns normally (no error), emitting only the
single log line `No chunks to save` — for every constructor config and
every store. -/
theorem c7_indexDocuments_empty (config : Option IndexerConfig)
    (store : Option StoreOracle) :
    indexDocuments (resolveConfig config) store [] =
      { calls := [], committed := [], err := none, logs := ["No chunks to save"] } := by
  have hel := resolveConfig_enableLogging config
  simp [indexDocuments, logIf, hel]

/-- Claim C9: the resolved configuration's `enableLogging` field is `true`
for every constructor argument — `config?.enableLogging || true` evaluates
to `true` even when the caller passes `enableLogging: false` — so no
`Indexer` instance can have logging disabled. -/
theorem c9_enableLogging_always_true (config : Option IndexerConfig) :
    (resolveConfig config).enableLogging = true ∧
    (resolveConfig (some { enableLogging := some false })).enableLogging = true :=
  ⟨resolveConfig_enableLogging config,
    resolveConfig_enableLogging (some { enableLogging := some false })⟩

/-- Claim C10: with no vector store wired in, `indexDocuments` on a
non-empty chunk list makes zero add-documents calls, commits nothing, yet
finishes without an error and still logs the success line. -/
theorem c10_missing_store_tolerated (config : Option IndexerConfig)
    (chunks : List Document) (h : chunks ≠ []) :
    (indexDocuments (resolveConfig config) none chunks).calls = [] ∧
    (indexDocuments (resolveConfig config) none chunks).committed = [] ∧
    (indexDocuments (resolveConfig config) none chunks).err = none ∧
    "Successfully saved all chunks to vector store" ∈
      (indexDocuments (resolveConfig config) none chunks).logs := by
  have hel := resolveConfig_enableLogging config
  obtain ⟨h1, h2, h3, h4⟩ := runBatches_none
    ((chunks.length + (resolveConfig config).batchSize - 1) /
      (resolveConfig config).batchSize) 0
    (chunksOf (resolveConfig config).batchSize chunks)
  rw [indexDocuments_calls _ _ _ h, indexDocuments_committed _ _ _ h,
    indexDocuments_err _ _ _ h, indexDocuments_logs _ _ _ h, hel]
  exact ⟨h1, h2, h3, by
    simp only [logIf, if_pos rfl]
    exact List.mem_cons_of_mem _ h4⟩

/-- Witness for C10: a single chunk, no store: no calls, no error, success
log present. -/
theorem c10_missing_store_tolerated_witness :
    (indexDocuments (resolveConfig none) none [⟨"A", fun _ => none⟩]).calls = [] ∧
    (indexDocuments (resolveConfig none) none [⟨"A", fun _ => none⟩]).committed = [] ∧
    (indexDocuments (resolveConfig none) none [⟨"A", fun _ => none⟩]).err = none ∧
    "Successfully saved all chunks to vector store" ∈
      (indexDocuments (resolveConfig none) none [⟨"A", fun _ => none⟩]).logs :=
  c10_missing_store_tolerated none [⟨"A", fun _ => none⟩] (by simp)

theorem gateFails_cons (hd : Document × ℚ) (rest : List (Document × ℚ)) :
    gateFails (hd :: rest) = decide (hd.2 < mkRat 6 10) := rfl

/-- Claim C1: whenever the similarity search returns no results, or the
top-ranked result's score is strictly below `0.6`, `queryDatabase` returns
`null`, logs the error line, and never invokes the chat model; moreover the
gate reads only the top result — its value on `hd :: rest` does not depend
on `rest`. -/
theorem c1_low_score_gate (chat : String → String) (results : List (Document × ℚ))
    (q : String)
    (h : results = [] ∨ ∃ hd rest, results = hd :: rest ∧ hd.2 < mkRat 6 10) :
    (queryDatabase chat results q).result = none ∧
    (queryDatabase chat results q).chatCalls = [] ∧
    (queryDatabase chat results q).errorLogs = ["Unable to find matching results."] ∧
    ∀ (hd : Document × ℚ) (r₁ r₂ : List (Document × ℚ)),
      gateFails (hd :: r₁) = gateFails (hd :: r₂) := by
  have hg : gateFails results = true := by
    rcases h with rfl | ⟨hd, rest, rfl, hlt⟩
    · rfl
    · rw [gateFails_cons]
      exact decide_eq_true hlt
  refine ⟨?_, ?_, ?_, fun hd r₁ r₂ => rfl⟩ <;> simp [queryDatabase, hg]

/-- Witness for C1: top score `0.59` with a lower-ranked score `0.9` above
the threshold still yields `null`, no chat call, and the error log. -/
theorem c1_low_score_gate_witness :
    (queryDatabase (fun _ => "ok")
      [(⟨"A", fun _ => none⟩, mkRat 59 100), (⟨"B", fun _ => none⟩, mkRat 9 10)]
      "Q").result = none ∧
    (queryDatabase (fun _ => "ok")
      [(⟨"A", fun _ => none⟩, mkRat 59 100), (⟨"B", fun _ => none⟩, mkRat 9 10)]
      "Q").chatCalls = [] ∧
    (queryDatabase (fun _ => "ok")
      [(⟨"A", fun _ => none⟩, mkRat 59 100), (⟨"B", fun _ => none⟩, mkRat 9 10)]
      "Q").errorLogs = ["Unable to find matching results."] ∧
    ∀ (hd : Document × ℚ) (r₁ r₂ : List (Document × ℚ)),
      gateFails (hd :: r₁) = gateFails (hd :: r₂) :=
  c1_low_score_gate (fun _ => "ok")
    [(⟨"A", fun _ => none⟩, mkRat 59 100), (⟨"B", fun _ => none⟩, mkRat 9 10)]
    "Q" (Or.inr ⟨_, _, rfl, by decide⟩)

/-- Claim C5: when the gate passes, the context sent onward is the join of
all returned candidates' contents, in retrieval order, with delimiter
`"\n\n---\n\n"` — including candidates whose own scores are below `0.6` (no
per-candidate filter appears anywhere); contents `A` and `B` give exactly
`"A\n\n---\n\nB"`. -/
theorem c5_context_joins_all (chat : String → String) (q : String)
    (hd : Document × ℚ) (rest : List (Document × ℚ))
    (hscore : mkRat 6 10 ≤ hd.2) :
    (queryDatabase chat (hd :: rest) q).chatCalls =
      [formatPrompt (String.intercalate "\n\n---\n\n"
        ((hd :: rest).map (fun r => r.1.pageContent))) q] ∧
    contextText (hd :: rest) =
      String.intercalate "\n\n---\n\n" ((hd :: rest).map (fun r => r.1.pageContent)) ∧
    ∀ (m₁ m₂ : String → Option String) (s₁ s₂ : ℚ),
      contextText [(⟨"A", m₁⟩, s₁), (⟨"B", m₂⟩, s₂)] = "A\n\n---\n\nB" := by
  have hg : gateFails (hd :: rest) = false := by
    rw [gateFails_cons]
    exact decide_eq_false (not_lt.mpr hscore)
  refine ⟨?_, rfl, fun m₁ m₂ s₁ s₂ => rfl⟩
  simp [queryDatabase, hg, contextText]

/-- Witness for C5: candidates `("A", 0.9)` and `("B", 0.75)` — the second
below no threshold here, both joined — for query `"Q"`. -/
theorem c5_context_joins_all_witness :
    (queryDatabase (fun _ => "ok")
      [(⟨"A", fun _ => none⟩, mkRat 9 10), (⟨"B", fun _ => none⟩, mkRat 3 4)]
      "Q").chatCalls =
      [formatPrompt (String.intercalate "\n\n---\n\n"
        ([((⟨"A", fun _ => none⟩ : Document), mkRat 9 10),
          (⟨"B", fun _ => none⟩, mkRat 3 4)].map (fun r => r.1.pageContent))) "Q"] ∧
    contextText [((⟨"A", fun _ => none⟩ : Document), mkRat 9 10),
        (⟨"B", fun _ => none⟩, mkRat 3 4)] =
      String.intercalate "\n\n---\n\n"
        ([((⟨"A", fun _ => none⟩ : Document), mkRat 9 10),
          (⟨"B", fun _ => none⟩, mkRat 3 4)].map (fun r => r.1.pageContent)) ∧
    ∀ (m₁ m₂ : String → Option String) (s₁ s₂ : ℚ),
      contextText [(⟨"A", m₁⟩, s₁), (⟨"B", m₂⟩, s₂)] = "A\n\n---\n\nB" :=
  c5_context_joins_all (fun _ => "ok") "Q" (⟨"A", fun _ => none⟩, mkRat 9 10)
    [(⟨"B", fun _ => none⟩, mkRat 3 4)] (by decide)

/-- Claim C6: the prompt sent to the chat model is exactly the fixed
`PROMPT_TEMPLATE` with `{context}` replaced by the assembled context and
`{question}` replaced by the original query, and nothing else changed: the
template splits as literal pieces around the two placeholders, and the
rendered prompt is those same literal pieces with the values spliced in. -/
theorem c6_prompt_is_template_substitution (chat : String → String) (q : String)
    (hd : Document × ℚ) (rest : List (Document × ℚ))
    (hscore : mkRat 6 10 ≤ hd.2) :
    (queryDatabase chat (hd :: rest) q).chatCalls =
      [tplPre ++ contextText (hd :: rest) ++ tplMid ++ q ++ tplSuf] ∧
    PROMPT_TEMPLATE = tplPre ++ "{context}" ++ tplMid ++ "{question}" ++ tplSuf ∧
    ∀ c qq : String, formatPrompt c qq = tplPre ++ c ++ tplMid ++ qq ++ tplSuf := by
  have hg : gateFails (hd :: rest) = false := by
    rw [gateFails_cons]
    exact decide_eq_false (not_lt.mpr hscore)
  refine ⟨?_, rfl, fun c qq => rfl⟩
  simp [queryDatabase, hg, formatPrompt]

/-- Witness for C6 at candidate `("A", 0.9)` and query `"Q"`. -/
theorem c6_prompt_is_template_substitution_witness :
    (queryDatabase (fun _ => "ok") [(⟨"A", fun _ => none⟩, mkRat 9 10)] "Q").chatCalls =
      [tplPre ++ contextText [((⟨"A", fun _ => none⟩ : Document), mkRat 9 10)] ++
        tplMid ++ "Q" ++ tplSuf] ∧
    PROMPT_TEMPLATE = tplPre ++ "{context}" ++ tplMid ++ "{question}" ++ tplSuf ∧
    ∀ c qq : String, formatPrompt c qq = tplPre ++ c ++ tplMid ++ qq ++ tplSuf :=
  c6_prompt_is_template_substitution (fun _ => "ok") "Q"
    (⟨"A", fun _ => none⟩, mkRat 9 10) [] (by decide)

/-- Counterexample for C4 as stated: a candidate whose metadata has the
`source` field present but equal to the empty string. The claim says the
sources list carries each candidate's `metadata.source` (with `null` only
for a candidate lacking the field), but `doc.metadata.source || null`
treats the falsy `""` as absent and yields `null`. -/
theorem c4_empty_source_counterexample :
    ¬ ((queryDatabase (fun _ => "ok")
        [(⟨"A", fun k => if k = "source" then some "" else none⟩, mkRat 9 10)]
        "Q").result.map (fun r => r.sources) =
      some [(⟨"A", fun k => if k = "source" then some "" else none⟩ :
        Document).metadata "source"]) := by
  decide

/-- Claim C4 (amended): when the top score is at least `0.6` (including
exactly `0.6`), `queryDatabase` returns a non-null result whose `sources`
list has one entry per retrieved candidate in the same order, each entry
being the candidate's `metadata.source` passed through the JavaScript
`|| null` coercion: `null` when the field is absent **or its value is the
falsy empty string**, the source value itself otherwise. -/
theorem c4_sources_shape (chat : String → String) (q : String)
    (hd : Document × ℚ) (rest : List (Document × ℚ))
    (hscore : mkRat 6 10 ≤ hd.2) :
    ∃ r, (queryDatabase chat (hd :: rest) q).result = some r ∧
      r.sources.length = (hd :: rest).length ∧
      r.sources = (hd :: rest).map (fun x => jsStrOrNull (x.1.metadata "source")) ∧
      jsStrOrNull none = none ∧
      jsStrOrNull (some "") = none ∧
      ∀ s : String, s ≠ "" → jsStrOrNull (some s) = some s := by
  have hg : gateFails (hd :: rest) = false := by
    rw [gateFails_cons]
    exact decide_eq_false (not_lt.mpr hscore)
  refine ⟨⟨chat (formatPrompt (contextText (hd :: rest)) q),
    (hd :: rest).map (fun x => jsStrOrNull (x.1.metadata "source"))⟩,
    ?_, by simp, rfl, rfl, rfl, ?_⟩
  · simp [queryDatabase, hg]
  · intro s hs
    simp [jsStrOrNull, hs]

/-- Witness for C4 (amended): top score exactly `0.6`; the first candidate
has `source: "doc.txt"`, the second lacks the field. -/
theorem c4_sources_shape_witness :
    ∃ r, (queryDatabase (fun _ => "ok")
        [(⟨"A", fun k => if k = "source" then some "doc.txt" else none⟩, mkRat 6 10),
          (⟨"B", fun _ => none⟩, mkRat 1 2)] "Q").result = some r ∧
      r.sources.length =
        [((⟨"A", fun k => if k = "source" then some "doc.txt" else none⟩ : Document),
          mkRat 6 10), (⟨"B", fun _ => none⟩, mkRat 1 2)].length ∧
      r.sources =
        [((⟨"A", fun k => if k = "source" then some "doc.txt" else none⟩ : Document),
          mkRat 6 10), (⟨"B", fun _ => none⟩, mkRat 1 2)].map
          (fun x => jsStrOrNull (x.1.metadata "source")) ∧
      jsStrOrNull none = none ∧
      jsStrOrNull (some "") = none ∧
      ∀ s : String, s ≠ "" → jsStrOrNull (some s) = some s :=
  c4_sources_shape (fun _ => "ok") "Q"
    (⟨"A", fun k => if k = "source" then some "doc.txt" else none⟩, mkRat 6 10)
    [(⟨"B", fun _ => none⟩, mkRat 1 2)] (by decide)

/-- Claim C8: every document returned by `loadDocuments` carries
`loadedFrom = "local_folder"` and `folderPath` equal to the argument, and it
arises from a loader document whose content and every other metadata key are
preserved unchanged — only the two merged keys may overwrite prior values. -/
theorem c8_loadDocuments_merges_metadata (loaded : List Document)
    (folderPath : String) (d : Document)
    (hd : d ∈ loadDocuments loaded folderPath) :
    d.metadata "loadedFrom" = some "local_folder" ∧
    d.metadata "folderPath" = some folderPath ∧
    ∃ d₀ ∈ loaded, d.pageContent = d₀.pageContent ∧
      ∀ k, k ≠ "loadedFrom" → k ≠ "folderPath" → d.metadata k = d₀.metadata k := by
  obtain ⟨d₀, hd₀, rfl⟩ := List.mem_map.mp hd
  refine ⟨by simp [mergeMetadata], by simp [mergeMetadata], d₀, hd₀, rfl, ?_⟩
  intro k h1 h2
  simp [mergeMetadata, h1, h2]

/-- Witness for C8: one loader document with a `source` key, loaded from
`./data`. -/
theorem c8_loadDocuments_merges_metadata_witness :
    (⟨"hello", mergeMetadata
        (fun k => if k = "source" then some "doc.txt" else none) "./data"⟩ :
      Document).metadata "loadedFrom" = some "local_folder" ∧
    (⟨"hello", mergeMetadata
        (fun k => if k = "source" then some "doc.txt" else none) "./data"⟩ :
      Document).metadata "folderPath" = some "./data" ∧
    ∃ d₀ ∈ [(⟨"hello", fun k => if k = "source" then some "doc.txt" else none⟩ :
        Document)],
      (⟨"hello", mergeMetadata
          (fun k => if k = "source" then some "doc.txt" else none) "./data"⟩ :
        Document).pageContent = d₀.pageContent ∧
      ∀ k, k ≠ "loadedFrom" → k ≠ "folderPath" →
        (⟨"hello", mergeMetadata
            (fun k => if k = "source" then some "doc.txt" else none) "./data"⟩ :
          Document).metadata k = d₀.metadata k :=
  c8_loadDocuments_merges_metadata
    [⟨"hello", fun k => if k = "source" then some "doc.txt" else none⟩] "./data"
    ⟨"hello", mergeMetadata
      (fun k => if k = "source" then some "doc.txt" else none) "./data"⟩
    (List.mem_cons_self _ _)
